import Mathlib

/-!
Shallow embedding of the `station-sarthi` map page and map service
(`src/src/app/services/map.service.ts` and the map page component).

The service owns the map settings, a Leaflet map handle, a location marker
and the persistent-storage entry `mapSettings`; the page owns the OSM
Buildings 3D overlay and the 2D/3D buttons.  Coordinates are modelled as
rationals (no arithmetic is ever performed on them, they are only stored
and compared), JS `||` on numbers and strings is modelled by explicit
truthiness helpers, and the asynchronous geolocation callback is modelled
as an explicit state transformer applied to a geolocation outcome.
-/

namespace StationSarthi

/-- `MapSettings` from `mapSettings.interface`: a (lat, lng) pair and a zoom. -/
structure MapSettings where
  location : ℚ × ℚ
  zoom : ℤ
deriving DecidableEq, Repr

/-- `defaultMapSettings` of `MapService` (hard-coded defaults). -/
def defaultMapSettings : MapSettings :=
  { location := (31.25271960741618, 100.70475680715587), zoom := 19 }

/-- Options of the base tile layer descriptor. -/
structure TileLayerOptions where
  maxZoom : ℤ
  minZoom : ℤ
  attribution : String
deriving DecidableEq, Repr

/-- `TileLayer` from `tileLayer.interface`: url template plus options. -/
structure TileLayer where
  url : String
  options : TileLayerOptions
deriving DecidableEq, Repr

/-- The `tileLayer` field of `MapService` (static OpenStreetMap descriptor). -/
def osmTileLayer : TileLayer :=
  { url := "https://{s}.tile.openstreetmap.org/{z}/{x}/{y}.png"
    options := { maxZoom := 19, minZoom := 3, attribution := "OpenStreetMap" } }

/-- A per-feature style override block (`feature.properties.style`): every
field is optional, a missing field is JS `undefined`. -/
structure GeoStyle where
  fill : Option String
  weight : Option ℚ
  color : Option String
  fillOpacity : Option ℚ
  dashArray : Option String
deriving DecidableEq, Repr

/-- GeoJSON data passed to `renderGeoJson`: either a single feature (which
may carry a `properties.style` block) or a feature collection whose features
each may carry one.  A feature collection object itself has no `properties`
member. -/
inductive GeoData where
  | feature (style : Option GeoStyle)
  | featureCollection (features : List (Option GeoStyle))
deriving DecidableEq, Repr

/-- `data.properties?.style` on a GeoJSON value: a bare feature exposes its
style block, a feature collection has no `properties` so the optional chain
yields `undefined`. -/
def GeoData.propertiesStyle : GeoData → Option GeoStyle
  | .feature s => s
  | .featureCollection _ => none

/-- The list of features of a GeoJSON value (a bare feature is rendered as
one feature). -/
def GeoData.features : GeoData → List (Option GeoStyle)
  | .feature s => [s]
  | .featureCollection fs => fs

/-- `L.PathOptions` as produced by `getStyles`.  The `opacity` field is
`Option`-valued because the override branch of `getStyles` builds an object
literal that has no `opacity` member at all. -/
structure PathOptions where
  fillColor : String
  weight : ℚ
  opacity : Option ℚ
  color : String
  dashArray : String
  fillOpacity : ℚ
deriving DecidableEq, Repr

/-- The `defaultStyle` local of `getStyles`. -/
def defaultStyle : PathOptions :=
  { fillColor := "#FFFFFF"
    weight := 2
    opacity := some 1
    color := "black"
    dashArray := ""
    fillOpacity := 0.7 }

/-- JS `x || d` where `x` is an optional number field: `undefined` and `0`
are falsy, every other number is truthy. -/
def jsOrNum (x : Option ℚ) (d : ℚ) : ℚ :=
  match x with
  | none => d
  | some v => if v = 0 then d else v

/-- JS `x || d` where `x` is an optional string field: `undefined` and the
empty string are falsy, every other string is truthy. -/
def jsOrStr (x : Option String) (d : String) : String :=
  match x with
  | none => d
  | some s => if s = "" then d else s

/-- `MapService.getStyles(feature)`: if `feature.properties?.style` is
present, build an object from the override with `||`-fallbacks for
`fillColor`, `weight`, `color`, `fillOpacity` and `dashArray` (this object
literal carries no `opacity` member); otherwise return `defaultStyle`. -/
def getStyles (feature : GeoData) : PathOptions :=
  match feature.propertiesStyle with
  | some st =>
      { fillColor := jsOrStr st.fill defaultStyle.fillColor
        weight := jsOrNum st.weight defaultStyle.weight
        opacity := none
        color := jsOrStr st.color defaultStyle.color
        dashArray := jsOrStr st.dashArray defaultStyle.dashArray
        fillOpacity := jsOrNum st.fillOpacity defaultStyle.fillOpacity }
  | none => defaultStyle

/-- A GeoJSON overlay layer added by `renderGeoJson`: the data plus the
style Leaflet applies to each of its features.  The `style` option passed by
`renderGeoJson` is a plain `PathOptions` object (not a function), and
Leaflet applies such an object uniformly to every feature of the layer. -/
structure GeoLayer where
  data : GeoData
  appliedStyles : List PathOptions
deriving DecidableEq, Repr

/-- Leaflet semantics of `L.geoJSON(data, { style })` when `style` is a
plain options object: every feature of `data` receives that same object. -/
def applyUniformStyle (data : GeoData) (style : PathOptions) : List PathOptions :=
  data.features.map (fun _ => style)

/-- The Leaflet map handle as far as the service observes it: view center
and zoom, the attached tile layers, whether the location marker has been
added to the map, and the GeoJSON overlay layers. -/
structure LeafletMap where
  center : ℚ × ℚ
  zoom : ℤ
  tileLayers : List TileLayer
  markerAttached : Bool
  geoLayers : List GeoLayer
deriving DecidableEq, Repr

/-- The location marker (`userLocation`); its fixed options (title, icon)
carry no state, only its position does. -/
structure Marker where
  latlng : ℚ × ℚ
deriving DecidableEq, Repr

/-- The storage contents of the persistent `mapSettings` entry on which the
service field keeps a well-shaped settings value: either a serialized
settings object that parses back, or a string on which `JSON.parse`
throws.  These are not all possible contents: `JSON.parse` can also succeed
with a non-settings value (e.g. the stored string `"null"` parses to JS
`null`), which the constructor assigns to the field verbatim —
`StoredContent` and `settingsAfterInit` below classify every content; the
service-state claims quantify over `StoredEntry` contents, on which the
settings field provably stays a well-shaped settings object. -/
inductive StoredEntry where
  | validJson (s : MapSettings)
  | invalidJson
deriving DecidableEq, Repr

/-- Every possible content of the persistent `mapSettings` entry,
classified by the outcome of `JSON.parse` on the stored string: a
serialization of a well-shaped settings object; the string `"null"`
(`JSON.parse` succeeds and returns JS `null`); some other string that
parses successfully to a non-settings value (a number, boolean, string,
array, or wrong-shape object); or a string on which `JSON.parse` throws. -/
inductive StoredContent where
  | wellFormed (s : MapSettings)
  | nullLiteral
  | otherJson
  | throws
deriving DecidableEq, Repr

/-- The JS value held in the service's `mapSettings` field: a well-shaped
settings object, JS `null`, or some other non-settings value — the latter
two arise when a stored string parses successfully to something that is
not a settings object and is assigned verbatim. -/
inductive JsSettings where
  | settings (s : MapSettings)
  | nullValue
  | otherValue
deriving DecidableEq, Repr

/-- Console diagnostics emitted by the service and the page. -/
inductive LogEntry where
  | errorParsingSettings
  | warnNoPosition
  | errorFetchingGeolocation
  | errorMapElementNotFound
  | warnMapNotInitialized
  | errorLoadingScript
deriving DecidableEq, Repr

/-- The mutable state of `MapService`: settings, map handle, marker, the
persistent storage entry, console log, and a count of `L.map` constructions
(used to state the at-most-one-map property). -/
structure ServiceState where
  mapSettings : MapSettings
  map : Option LeafletMap
  userLocation : Option Marker
  storage : Option StoredEntry
  log : List LogEntry
  mapsCreated : ℕ
deriving DecidableEq, Repr

/-- Outcome of the geolocation collaborator: a `{lat, lng}` position, a
`null` result, or an error on the observable. -/
inductive GeoOutcome where
  | success (lat lng : ℚ)
  | nullResult
  | error
deriving DecidableEq, Repr

/-- `saveMapSettings`: serialize the current settings into the storage
entry (`JSON.stringify` of a settings object parses back to it). -/
def saveMapSettings (st : ServiceState) : ServiceState :=
  { st with storage := some (StoredEntry.validJson st.mapSettings) }

/-- `useStoredOrDefaultLocation`:
`this.mapSettings.location = this.mapSettings.location || default`.
A (lat, lng) pair is a JS array and arrays are always truthy, so the `||`
keeps the current location. -/
def useStoredOrDefaultLocation (st : ServiceState) : ServiceState :=
  { st with mapSettings := { st.mapSettings with location := st.mapSettings.location } }

/-- `renderLocationMarker`: warn and return if no map exists; otherwise
reposition the existing marker or create and attach a new one at the
current settings location, then `flyTo` the settings location and zoom. -/
def renderLocationMarker (st : ServiceState) : ServiceState :=
  match st.map with
  | none => { st with log := LogEntry.warnMapNotInitialized :: st.log }
  | some m =>
      let (marker, m1) :=
        match st.userLocation with
        | some mk => ({ mk with latlng := st.mapSettings.location }, m)
        | none => ({ latlng := st.mapSettings.location }, { m with markerAttached := true })
      let m2 := { m1 with center := st.mapSettings.location, zoom := st.mapSettings.zoom }
      { st with map := some m2, userLocation := some marker }

/-- The synchronous part of the service constructor over `StoredEntry`
contents: read the `mapSettings` storage entry; if present and parsing to a
settings object adopt it, on a parse exception log and revert to a copy of
the defaults, if absent keep the defaults the field was initialized with.
This covers exactly the contents on which the field stays a well-shaped
settings object; `settingsAfterInit` below extends the classification to
the contents `JSON.parse` accepts with a non-settings value, which the code
adopts verbatim with no fallback. -/
def loadStoredSettings (st : ServiceState) : ServiceState :=
  match st.storage with
  | none => st
  | some (StoredEntry.validJson s) => { st with mapSettings := s }
  | some StoredEntry.invalidJson =>
      { st with mapSettings := defaultMapSettings
                log := LogEntry.errorParsingSettings :: st.log }

/-- The state of a freshly constructed `MapService` over a given storage
content: fields start at their declared initializers, then the synchronous
part of the constructor loads stored settings.  The geolocation request is
asynchronous; its callback is `geoCallback` below. -/
def initService (store : Option StoredEntry) : ServiceState :=
  loadStoredSettings
    { mapSettings := defaultMapSettings
      map := none
      userLocation := none
      storage := store
      log := []
      mapsCreated := 0 }

/-- The JS value held in `this.mapSettings` right after the synchronous
part of the service constructor, over every possible storage content: the
field starts as a copy of the defaults; a present entry is passed to
`JSON.parse` and the parse result is assigned verbatim — only a parse
exception reaches the `catch` that reverts to the defaults.  A successful
parse of a non-settings value (`null`, a number, a wrong-shape object, …)
is therefore adopted without any fallback. -/
def settingsAfterInit : Option StoredContent → JsSettings
  | none => JsSettings.settings defaultMapSettings
  | some (StoredContent.wellFormed s) => JsSettings.settings s
  | some StoredContent.nullLiteral => JsSettings.nullValue
  | some StoredContent.otherJson => JsSettings.otherValue
  | some StoredContent.throws => JsSettings.settings defaultMapSettings

/-- The geolocation subscription callback inside the service constructor:
on a position, overwrite the settings location, persist, and render the
marker; on a `null` position, warn and call `useStoredOrDefaultLocation`;
on an error, log and call `useStoredOrDefaultLocation`. -/
def geoCallback (o : GeoOutcome) (st : ServiceState) : ServiceState :=
  match o with
  | GeoOutcome.success lat lng =>
      let st1 := { st with mapSettings := { st.mapSettings with location := (lat, lng) } }
      renderLocationMarker (saveMapSettings st1)
  | GeoOutcome.nullResult =>
      useStoredOrDefaultLocation { st with log := LogEntry.warnNoPosition :: st.log }
  | GeoOutcome.error =>
      useStoredOrDefaultLocation { st with log := LogEntry.errorFetchingGeolocation :: st.log }

/-- `renderMap(element)`: if the element is absent, log and return without
touching the map; otherwise construct the map centered and zoomed per the
current settings, attach the base tile layer, and render the location
marker. -/
def renderMap (elementFound : Bool) (st : ServiceState) : ServiceState :=
  if elementFound then
    let m : LeafletMap :=
      { center := st.mapSettings.location
        zoom := st.mapSettings.zoom
        tileLayers := [osmTileLayer]
        markerAttached := false
        geoLayers := [] }
    renderLocationMarker { st with map := some m, mapsCreated := st.mapsCreated + 1 }
  else
    { st with log := LogEntry.errorMapElementNotFound :: st.log }

/-- `getMap(element)`: render the map if none exists yet, then return
`of(this.map)` — the possibly still absent handle — together with the new
service state. -/
def getMap (elementFound : Bool) (st : ServiceState) : ServiceState × Option LeafletMap :=
  let st1 := if st.map.isNone then renderMap elementFound st else st
  (st1, st1.map)

/-- `renderGeoJson(data)`: if a map exists, add
`L.geoJSON(data, { style: this.getStyles(data) })` to it — note that
`getStyles` is applied to the whole `data` object and the resulting single
options object is what Leaflet applies to every feature; if no map exists,
warn and do nothing. -/
def renderGeoJson (data : GeoData) (st : ServiceState) : ServiceState :=
  match st.map with
  | some m =>
      let layer : GeoLayer := { data := data, appliedStyles := applyUniformStyle data (getStyles data) }
      { st with map := some { m with geoLayers := m.geoLayers ++ [layer] } }
  | none => { st with log := LogEntry.warnMapNotInitialized :: st.log }

/-- Fold a sequence of `getMap` calls (one element-presence flag per call)
over the service state. -/
def runGetMaps (es : List Bool) (st : ServiceState) : ServiceState :=
  es.foldl (fun s e => (getMap e s).1) st

/-- The mutable state of the `MapPage` component: its `map` field, the
`osmb` overlay reference (an instance identifier when active), the number
of `new OSMBuildings(...)` constructions performed (to state that no second
instance is ever created), the `active` flags of the page's buttons, and
the console log of the page. -/
structure PageState where
  map : Option LeafletMap
  osmb : Option ℕ
  overlaysCreated : ℕ
  buttons : List Bool
  log : List LogEntry
deriving DecidableEq, Repr

/-- `initializeOSMBuildings` of the page: if `this.osmb` is unset,
construct a fresh overlay attached to the map and store the reference;
otherwise do nothing. -/
def initOSMBuildings (st : PageState) : PageState :=
  match st.osmb with
  | some _ => st
  | none =>
      { st with osmb := some st.overlaysCreated
                overlaysCreated := st.overlaysCreated + 1 }

/-- `toggleUI(button)`: remove the `active` class from every button on the
page, then add it to the invoked button (given by its index). -/
def toggleUI (target : ℕ) (btns : List Bool) : List Bool :=
  (btns.map (fun _ => false)).set target true

/-- `render3D(event)`: enable the 3D overlay (no-op when already active),
then mark the clicked button as the only active one. -/
def render3D (target : ℕ) (st : PageState) : PageState :=
  let st1 := initOSMBuildings st
  { st1 with buttons := toggleUI target st1.buttons }

/-- `render2D(event)`: if an overlay is present, remove it from the map and
clear the stored reference; then mark the clicked button as the only active
one. -/
def render2D (target : ℕ) (st : PageState) : PageState :=
  let st1 := if st.osmb.isSome then { st with osmb := none } else st
  { st1 with buttons := toggleUI target st1.buttons }

/-- Outcome of the dynamic `loadScript` promise for the OSM Buildings
script: resolution or rejection. -/
inductive ScriptResult where
  | ok
  | err
deriving DecidableEq, Repr

/-- `ngAfterViewInit`: look up the map container element, call
`getMap(mapEl)` and subscribe; the observable emits synchronously, so the
callback stores the handle in `this.map` and awaits `loadScript`.  When the
script resolves, `initializeOSMBuildings` runs.  When it rejects, the
rejection happens inside the `async` subscriber: the surrounding
`try/catch` only guards the synchronous `subscribe` call, so the rejection
escapes as an unhandled promise rejection and the `catch` block (and its
`console.error`) never executes — nothing further runs, and nothing is
appended to the page log. -/
def ngAfterViewInit (elementFound : Bool) (script : ScriptResult)
    (svc : ServiceState) (pg : PageState) : ServiceState × PageState :=
  let (svc1, handle) := getMap elementFound svc
  let pg1 := { pg with map := handle }
  match script with
  | ScriptResult.ok => (svc1, initOSMBuildings pg1)
  | ScriptResult.err => (svc1, pg1)

/-! ### Helper lemmas -/

theorem jsOrNum_truthy (x : Option ℚ) (d v : ℚ) (hx : x = some v) (hv : v ≠ 0) :
    jsOrNum x d = v := by
  subst hx; simp [jsOrNum, hv]

theorem jsOrNum_falsy (x : Option ℚ) (d : ℚ) (hx : x = none ∨ x = some 0) :
    jsOrNum x d = d := by
  rcases hx with rfl | rfl <;> simp [jsOrNum]

theorem jsOrStr_truthy (x : Option String) (d s : String) (hx : x = some s) (hs : s ≠ "") :
    jsOrStr x d = s := by
  subst hx; simp [jsOrStr, hs]

theorem jsOrStr_falsy (x : Option String) (d : String) (hx : x = none ∨ x = some "") :
    jsOrStr x d = d := by
  rcases hx with rfl | rfl <;> simp [jsOrStr]

theorem toggleUI_length (i : ℕ) (btns : List Bool) :
    (toggleUI i btns).length = btns.length := by
  simp [toggleUI]

theorem toggleUI_getElem (i j : ℕ) (btns : List Bool) (hj : j < btns.length) :
    (toggleUI i btns)[j]? = some (decide (j = i)) := by
  by_cases hij : i = j
  · subst hij
    have hlen : i < (btns.map (fun _ => false)).length := by simpa using hj
    rw [toggleUI, List.getElem?_set_self hlen]
    simp
  · have hd : (decide (j = i)) = false := by
      simp only [decide_eq_false_iff_not]
      exact fun h => hij h.symm
    rw [hd, toggleUI, List.getElem?_set_ne hij, List.getElem?_map,
      List.getElem?_eq_getElem hj]
    rfl

theorem getMap_preserves_inv (st : ServiceState) (e : Bool)
    (h : st.map = none → st.mapsCreated = 0) (h1 : st.mapsCreated ≤ 1) :
    ((getMap e st).1.map = none → (getMap e st).1.mapsCreated = 0) ∧
      (getMap e st).1.mapsCreated ≤ 1 := by
  rcases hm : st.map with _ | m
  · have h0 := h hm
    rcases e with _ | _
    · simp [getMap, renderMap, hm, h0]
    · cases hu : st.userLocation <;>
        simp [getMap, renderMap, renderLocationMarker, hm, hu, h0]
  · constructor
    · intro hc
      rw [getMap] at hc
      simp [hm] at hc
    · simpa [getMap, hm] using h1

theorem runGetMaps_inv (es : List Bool) (st : ServiceState)
    (h : st.map = none → st.mapsCreated = 0) (h1 : st.mapsCreated ≤ 1) :
    (runGetMaps es st).mapsCreated ≤ 1 := by
  induction es generalizing st with
  | nil => exact h1
  | cons e es ih =>
      have step := getMap_preserves_inv st e h h1
      simpa [runGetMaps, List.foldl_cons] using ih (getMap e st).1 step.1 step.2

/-! ### Claims -/

/-- **C1**: a successful geolocation response `{lat, lng}` overwrites the
settings location with the reported coordinates, persists the updated
settings to storage (the persisted entry matches the reported coordinates),
and updates and re-flies the location marker (when a map exists, the view
is flown to the reported coordinates and the marker sits there); in
particular, starting from no persisted settings, after a successful
geolocation response the map obtained from `getMap` is centered on the
reported coordinates. -/
theorem geo_success_updates_persists_and_flies
    (st : ServiceState) (m : LeafletMap) (lat lng : ℚ)
    (hm : st.map = some m) :
    ((geoCallback (GeoOutcome.success lat lng) st).mapSettings.location = (lat, lng)) ∧
    ((geoCallback (GeoOutcome.success lat lng) st).storage =
      some (StoredEntry.validJson (geoCallback (GeoOutcome.success lat lng) st).mapSettings)) ∧
    (∃ m2, (geoCallback (GeoOutcome.success lat lng) st).map = some m2 ∧
      m2.center = (lat, lng)) ∧
    ((geoCallback (GeoOutcome.success lat lng) st).userLocation =
      some { latlng := (lat, lng) }) ∧
    (∃ m3, (getMap true (geoCallback (GeoOutcome.success lat lng) (initService none))).2 =
        some m3 ∧ m3.center = (lat, lng)) := by
  cases hu : st.userLocation <;>
    simp [geoCallback, saveMapSettings, renderLocationMarker, hm, hu, getMap,
      initService, loadStoredSettings, renderMap]

/-- A service state that already holds a map (used to instantiate the C1
and C6 theorems at concrete inputs). -/
def mappedState : ServiceState := (getMap true (initService none)).1

/-- The Leaflet map handle held by `mappedState`. -/
def mappedStateMap : LeafletMap :=
  { center := defaultMapSettings.location
    zoom := defaultMapSettings.zoom
    tileLayers := [osmTileLayer]
    markerAttached := true
    geoLayers := [] }

/-- Witness for **C1** at a concrete state and concrete coordinates. -/
theorem geo_success_updates_persists_and_flies_witness :
    ((geoCallback (GeoOutcome.success 10 20) mappedState).mapSettings.location = (10, 20)) ∧
    (∃ m2, (geoCallback (GeoOutcome.success 10 20) mappedState).map = some m2 ∧
      m2.center = (10, 20)) := by
  have h := geo_success_updates_persists_and_flies mappedState mappedStateMap 10 20 rfl
  exact ⟨h.1, h.2.2.1⟩

/-- **C2 counterexample**: a stored entry holding the string `"null"`
parses successfully, so the `catch`-only fallback never runs and the parsed
JS `null` is assigned to the settings field verbatim: after initialization
the settings value is `null`, not a (non-null) settings object and not the
hard-coded defaults — refuting the claimed non-null invariant at this
storage content. -/
theorem stored_null_defeats_nonnull :
    settingsAfterInit (some StoredContent.nullLiteral) = JsSettings.nullValue ∧
    JsSettings.nullValue ≠ JsSettings.settings defaultMapSettings := by
  refine ⟨rfl, ?_⟩
  intro h
  cases h

/-- **C2 (amended)**: for storage content that is absent, a serialized
well-formed settings object, or a string on which `JSON.parse` throws, the
settings value after service initialization is a non-null settings object —
the stored settings when well-formed, the hard-coded defaults otherwise —
and on these contents it agrees with the service-state initialization used
by the other claims; but a stored string that `JSON.parse` accepts with a
non-settings value (such as `"null"`) is adopted verbatim with no fallback,
so the settings value after initialization is then not a settings object at
all. -/
theorem settings_fallback_on_parseable (s : MapSettings) :
    (settingsAfterInit none = JsSettings.settings defaultMapSettings) ∧
    (settingsAfterInit (some (StoredContent.wellFormed s)) = JsSettings.settings s) ∧
    (settingsAfterInit (some StoredContent.throws) =
      JsSettings.settings defaultMapSettings) ∧
    (settingsAfterInit (some StoredContent.nullLiteral) = JsSettings.nullValue) ∧
    (settingsAfterInit (some StoredContent.otherJson) = JsSettings.otherValue) ∧
    (settingsAfterInit none = JsSettings.settings (initService none).mapSettings) ∧
    (settingsAfterInit (some (StoredContent.wellFormed s)) =
      JsSettings.settings (initService (some (StoredEntry.validJson s))).mapSettings) ∧
    (settingsAfterInit (some StoredContent.throws) =
      JsSettings.settings (initService (some StoredEntry.invalidJson)).mapSettings) :=
  ⟨rfl, rfl, rfl, rfl, rfl, rfl, rfl, rfl⟩

/-- **C3**: a failed (error) or null geolocation outcome leaves the
settings location exactly as it was before the callback (the stored-or-
default value); in particular, starting from no persisted settings and a
null geolocation result, the map obtained from `getMap` is centered on the
hard-coded default location. -/
theorem geo_failure_keeps_location (st : ServiceState) :
    ((geoCallback GeoOutcome.nullResult st).mapSettings.location =
      st.mapSettings.location) ∧
    ((geoCallback GeoOutcome.error st).mapSettings.location =
      st.mapSettings.location) ∧
    (∃ m2, (getMap true (geoCallback GeoOutcome.nullResult (initService none))).2 =
        some m2 ∧ m2.center = defaultMapSettings.location) :=
  ⟨rfl, rfl, ⟨_, rfl, rfl⟩⟩

/-- **C10**: no geolocation outcome (success, null, or error) ever touches
the zoom field of the settings: the callback mutates only the location. -/
theorem geo_outcomes_preserve_zoom (st : ServiceState) (o : GeoOutcome) :
    (geoCallback o st).mapSettings.zoom = st.mapSettings.zoom := by
  cases o with
  | success lat lng =>
      cases hm : st.map <;> cases hu : st.userLocation <;>
        simp [geoCallback, saveMapSettings, renderLocationMarker, hm, hu]
  | nullResult => rfl
  | error => rfl

/-- A style override block whose `weight` field is present but `0`. -/
def zeroWeightOverride : GeoStyle :=
  { fill := none, weight := some 0, color := none, fillOpacity := none, dashArray := none }

/-- **C4 counterexample**: a feature overriding `weight` with `0` does not
keep its overridden field — the `||`-fallback treats `0` as missing and the
computed style ends up with the default weight `2` instead of `0`. -/
theorem getStyles_drops_falsy_override :
    zeroWeightOverride.weight = some 0 ∧
    (getStyles (GeoData.feature (some zeroWeightOverride))).weight = 2 ∧
    (getStyles (GeoData.feature (some zeroWeightOverride))).weight ≠ 0 := by
  refine ⟨rfl, rfl, ?_⟩
  intro h
  exact absurd h (by norm_num [getStyles, GeoData.propertiesStyle, zeroWeightOverride, jsOrNum, defaultStyle])

/-- **C4 (amended)**: per-feature style fallback.  A feature without a
style block yields exactly the default tuple.  A feature with a style block
keeps each overridden field whose value is truthy (a nonzero number, a
nonempty string) and falls back to the default for each field that is
missing or falsy (`0` or the empty string); the `opacity` field is omitted
from the computed style whenever a style block is present. -/
theorem getStyles_fallback (ov : GeoStyle) :
    (getStyles (GeoData.feature none) = defaultStyle) ∧
    ((getStyles (GeoData.feature (some ov))).opacity = none) ∧
    (∀ w, ov.weight = some w → w ≠ 0 →
      (getStyles (GeoData.feature (some ov))).weight = w) ∧
    (ov.weight = none ∨ ov.weight = some 0 →
      (getStyles (GeoData.feature (some ov))).weight = defaultStyle.weight) ∧
    (∀ q, ov.fillOpacity = some q → q ≠ 0 →
      (getStyles (GeoData.feature (some ov))).fillOpacity = q) ∧
    (ov.fillOpacity = none ∨ ov.fillOpacity = some 0 →
      (getStyles (GeoData.feature (some ov))).fillOpacity = defaultStyle.fillOpacity) ∧
    (∀ s, ov.fill = some s → s ≠ "" →
      (getStyles (GeoData.feature (some ov))).fillColor = s) ∧
    (ov.fill = none ∨ ov.fill = some "" →
      (getStyles (GeoData.feature (some ov))).fillColor = defaultStyle.fillColor) ∧
    (∀ s, ov.color = some s → s ≠ "" →
      (getStyles (GeoData.feature (some ov))).color = s) ∧
    (ov.color = none ∨ ov.color = some "" →
      (getStyles (GeoData.feature (some ov))).color = defaultStyle.color) ∧
    (∀ s, ov.dashArray = some s → s ≠ "" →
      (getStyles (GeoData.feature (some ov))).dashArray = s) ∧
    (ov.dashArray = none ∨ ov.dashArray = some "" →
      (getStyles (GeoData.feature (some ov))).dashArray = defaultStyle.dashArray) := by
  refine ⟨rfl, rfl, ?_, ?_, ?_, ?_, ?_, ?_, ?_, ?_, ?_, ?_⟩
  · exact fun w hw hw0 => jsOrNum_truthy ov.weight _ w hw hw0
  · exact fun hx => jsOrNum_falsy ov.weight _ hx
  · exact fun q hq hq0 => jsOrNum_truthy ov.fillOpacity _ q hq hq0
  · exact fun hx => jsOrNum_falsy ov.fillOpacity _ hx
  · exact fun s hs hs0 => jsOrStr_truthy ov.fill _ s hs hs0
  · exact fun hx => jsOrStr_falsy ov.fill _ hx
  · exact fun s hs hs0 => jsOrStr_truthy ov.color _ s hs hs0
  · exact fun hx => jsOrStr_falsy ov.color _ hx
  · exact fun s hs hs0 => jsOrStr_truthy ov.dashArray _ s hs hs0
  · exact fun hx => jsOrStr_falsy ov.dashArray _ hx

/-- A partial style override: a truthy fill color, a missing weight. -/
def partialOverride : GeoStyle :=
  { fill := some "red", weight := none, color := none, fillOpacity := some 0.5,
    dashArray := none }

/-- Witness for the amended **C4** at a concrete partial override. -/
theorem getStyles_fallback_witness :
    (getStyles (GeoData.feature (some partialOverride))).fillColor = "red" ∧
    (getStyles (GeoData.feature (some partialOverride))).weight = defaultStyle.weight ∧
    (getStyles (GeoData.feature (some partialOverride))).fillOpacity = 0.5 := by
  have h := getStyles_fallback partialOverride
  exact ⟨h.2.2.2.2.2.2.1 "red" rfl (by decide),
    h.2.2.2.1 (Or.inl rfl),
    h.2.2.2.2.1 0.5 rfl (by norm_num)⟩

/-- A feature style override filling red. -/
def redOverride : GeoStyle :=
  { fill := some "red", weight := none, color := none, fillOpacity := none,
    dashArray := none }

/-- A feature style override filling blue. -/
def blueOverride : GeoStyle :=
  { fill := some "blue", weight := none, color := none, fillOpacity := none,
    dashArray := none }

/-- A feature collection whose two features carry distinct style
overrides. -/
def twoStyledFeatures : GeoData :=
  GeoData.featureCollection [some redOverride, some blueOverride]

/-- **C5**: `renderGeoJson` does NOT style features individually.  It
computes one options object from the top-level data — a feature collection,
whose missing `properties` make that object the default style — and Leaflet
applies it uniformly: both features of `twoStyledFeatures` receive the
default style, even though their own overrides would yield two distinct
styles (red vs blue fill). -/
theorem renderGeoJson_ignores_feature_styles :
    (∃ m, (renderGeoJson twoStyledFeatures mappedState).map = some m ∧
      m.geoLayers.map GeoLayer.appliedStyles = [[defaultStyle, defaultStyle]]) ∧
    getStyles (GeoData.feature (some redOverride)) ≠
      getStyles (GeoData.feature (some blueOverride)) := by
  constructor
  · exact ⟨_, rfl, rfl⟩
  · intro h
    have : (getStyles (GeoData.feature (some redOverride))).fillColor =
        (getStyles (GeoData.feature (some blueOverride))).fillColor := by rw [h]
    simp [getStyles, GeoData.propertiesStyle, redOverride, blueOverride,
      jsOrStr, defaultStyle] at this

/-- **C6**: `getMap` returns the existing map handle unchanged when one was
already created; otherwise, with the element present, it constructs exactly
one map centered and zoomed per the current settings, with the base tile
layer attached and the location marker created and attached; with the
element absent it only logs and yields no handle; and across any sequence
of `getMap` calls from a fresh service, at most one map is ever
constructed. -/
theorem getMap_at_most_one_map
    (st1 st2 : ServiceState) (m : LeafletMap) (e : Bool) (es : List Bool)
    (store : Option StoredEntry)
    (h1 : st1.map = some m) (h2 : st2.map = none) (h3 : st2.userLocation = none) :
    (getMap e st1 = (st1, some m)) ∧
    ((getMap true st2).1.map = some
        { center := st2.mapSettings.location
          zoom := st2.mapSettings.zoom
          tileLayers := [osmTileLayer]
          markerAttached := true
          geoLayers := [] } ∧
      (getMap true st2).2 = (getMap true st2).1.map ∧
      (getMap true st2).1.userLocation = some { latlng := st2.mapSettings.location } ∧
      (getMap true st2).1.mapsCreated = st2.mapsCreated + 1) ∧
    (getMap false st2 =
      ({ st2 with log := LogEntry.errorMapElementNotFound :: st2.log }, none)) ∧
    (runGetMaps es (initService store)).mapsCreated ≤ 1 := by
  refine ⟨?_, ?_, ?_, ?_⟩
  · simp [getMap, h1]
  · refine ⟨?_, rfl, ?_, ?_⟩ <;>
      simp [getMap, renderMap, renderLocationMarker, h2, h3]
  · simp [getMap, renderMap, h2]
  · have h0 : (initService store).mapsCreated = 0 := by
      rcases store with _ | se
      · rfl
      · cases se <;> rfl
    exact runGetMaps_inv es _ (fun _ => h0) (by rw [h0]; exact Nat.zero_le 1)

/-- Witness for **C6** at a concrete mapped state and a concrete call
sequence. -/
theorem getMap_at_most_one_map_witness :
    (getMap true mappedState = (mappedState, some mappedStateMap)) ∧
    (runGetMaps [true, true, false] (initService none)).mapsCreated ≤ 1 := by
  have h := getMap_at_most_one_map mappedState (initService none) mappedStateMap true
    [true, true, false] none rfl rfl rfl
  exact ⟨h.1, h.2.2.2⟩

/-- **C7**: enabling 3D while the overlay is already active is a no-op on
the overlay: the stored reference still points to the overlay created by
the first enable, and no second overlay instance is constructed. -/
theorem render3D_reenter_noop (st : PageState) (k target : ℕ)
    (h : st.osmb = some k) :
    ((render3D target st).osmb = some k) ∧
    ((render3D target st).overlaysCreated = st.overlaysCreated) := by
  simp [render3D, initOSMBuildings, h]

/-- A page state whose 3D overlay is active (overlay instance `0`). -/
def activeOverlayPage : PageState :=
  { map := none, osmb := some 0, overlaysCreated := 1, buttons := [false, false],
    log := [] }

/-- Witness for **C7** at a concrete page state with an active overlay. -/
theorem render3D_reenter_noop_witness :
    ((render3D 1 activeOverlayPage).osmb = some 0) ∧
    ((render3D 1 activeOverlayPage).overlaysCreated = 1) :=
  render3D_reenter_noop activeOverlayPage 0 1 rfl

/-- **C8**: enabling 3D (clicking button `i3`) and then disabling it
(clicking button `i2`) leaves the page in 2D state: the overlay reference
is cleared, the clicked 2D button is the active one and the 3D button is
not; and disabling 3D on a page with no overlay leaves the overlay state
untouched. -/
theorem render3D_then_render2D (st : PageState) (i3 i2 : ℕ)
    (h2 : i2 < st.buttons.length) (h3 : i3 < st.buttons.length) (hne : i2 ≠ i3) :
    ((render2D i2 (render3D i3 st)).osmb = none) ∧
    ((render2D i2 (render3D i3 st)).buttons[i2]? = some true) ∧
    ((render2D i2 (render3D i3 st)).buttons[i3]? = some false) ∧
    (st.osmb = none →
      (render2D i2 st).osmb = none ∧
      (render2D i2 st).overlaysCreated = st.overlaysCreated) := by
  have hb2 : i2 < (toggleUI i3 st.buttons).length := by
    rw [toggleUI_length]; exact h2
  have hb3 : i3 < (toggleUI i3 st.buttons).length := by
    rw [toggleUI_length]; exact h3
  have hbtns : (render2D i2 (render3D i3 st)).buttons =
      toggleUI i2 (toggleUI i3 st.buttons) := by
    cases ho : st.osmb <;> simp [render2D, render3D, initOSMBuildings, ho]
  have hosmb : (render2D i2 (render3D i3 st)).osmb = none := by
    cases ho : st.osmb <;> simp [render2D, render3D, initOSMBuildings, ho]
  refine ⟨hosmb, ?_, ?_, fun h0 => ?_⟩
  · rw [hbtns, toggleUI_getElem i2 i2 _ hb2]
    simp
  · rw [hbtns, toggleUI_getElem i2 i3 _ hb3]
    simp only [Option.some.injEq, decide_eq_false_iff_not]
    exact fun hh => hne hh.symm
  · constructor <;> simp [render2D, h0]

/-- A fresh page with two buttons (2D at index 0, 3D at index 1) and no
overlay. -/
def freshPage : PageState :=
  { map := none, osmb := none, overlaysCreated := 0, buttons := [false, false],
    log := [] }

/-- Witness for **C8**: click 3D (button 1) then 2D (button 0) on the fresh
two-button page. -/
theorem render3D_then_render2D_witness :
    ((render2D 0 (render3D 1 freshPage)).osmb = none) ∧
    ((render2D 0 (render3D 1 freshPage)).buttons[0]? = some true) ∧
    ((render2D 0 (render3D 1 freshPage)).buttons[1]? = some false) := by
  have h := render3D_then_render2D freshPage 1 0 (by decide) (by decide) (by decide)
  exact ⟨h.1, h.2.1, h.2.2.1⟩

/-- **C9**: when the OSM Buildings script fails to load after the map was
obtained, the failure is non-fatal — the page holds the constructed map
handle, no overlay exists, no overlay was constructed — but, contrary to
the claim, nothing is logged: the rejection of the `await`ed promise
happens inside the `async` subscriber, escapes the `try/catch` that only
guards the synchronous `subscribe` call, and the `catch` block's
`console.error` never runs (the page log stays empty). -/
theorem script_failure_not_logged_nonfatal :
    ((ngAfterViewInit true ScriptResult.err (initService none) freshPage).2.map =
      some mappedStateMap) ∧
    ((ngAfterViewInit true ScriptResult.err (initService none) freshPage).2.osmb = none) ∧
    ((ngAfterViewInit true ScriptResult.err (initService none) freshPage).2.overlaysCreated
      = 0) ∧
    ((ngAfterViewInit true ScriptResult.err (initService none) freshPage).2.log = []) ∧
    ((ngAfterViewInit true ScriptResult.err (initService none) freshPage).1.map =
      some mappedStateMap) :=
  ⟨rfl, rfl, rfl, rfl, rfl⟩

end StationSarthi
